import Mathlib

/-!
Verification of the libMesh exception facility
(`include/base/libmesh_exceptions.h`) against its specification.

The header defines a closed taxonomy of exception classes
(LogicError, NotImplemented, FileError, ConvergenceFailure,
DynamicCastFailure, FloatingPointException, SolverException) and a
build-time switch (`LIBMESH_ENABLE_EXCEPTIONS`) selecting between
structured exception propagation (`LIBMESH_THROW` is `throw`,
`libmesh_try` is `try`, `libmesh_catch(e)` is `catch(e)`) and
immediate termination (`LIBMESH_THROW` is `std::abort()`,
`libmesh_try` is empty, `libmesh_catch(e)` is `if (0)`).

We embed the constructed exception objects as Lean data, the C++ base
class hierarchy as a relation, and the two build modes as two
evaluators for a small statement language with try/catch/raise.
-/

namespace libMesh

/-- The C++ standard base classes appearing in the header's hierarchy:
`std::exception`, `std::logic_error`, `std::runtime_error`.  Both
`std::logic_error` and `std::runtime_error` derive from
`std::exception`. -/
inductive CppBase
  | exception
  | logic_error
  | runtime_error
deriving DecidableEq, Repr

/-- The seven exception classes declared in the header. -/
inductive VariantTag
  | LogicError
  | NotImplemented
  | FileError
  | ConvergenceFailure
  | DynamicCastFailure
  | FloatingPointException
  | SolverException
deriving DecidableEq, Repr

/-- Direct base class of each variant, exactly as written in the
source: `class LogicError : public std::logic_error`,
`class NotImplemented : public std::logic_error`,
`class FileError : public std::runtime_error`,
`class ConvergenceFailure : public std::runtime_error`,
`class DynamicCastFailure : public std::runtime_error`,
`class FloatingPointException : public std::runtime_error`,
`class SolverException : public std::exception`. -/
def directBase : VariantTag → CppBase
  | .LogicError => .logic_error
  | .NotImplemented => .logic_error
  | .FileError => .runtime_error
  | .ConvergenceFailure => .runtime_error
  | .DynamicCastFailure => .runtime_error
  | .FloatingPointException => .runtime_error
  | .SolverException => .exception

/-- Reflexive-transitive derivation among the standard bases:
`std::logic_error` and `std::runtime_error` each derive from
`std::exception`. -/
def baseDerivesFrom : CppBase → CppBase → Bool
  | .exception, .exception => true
  | .logic_error, .logic_error => true
  | .logic_error, .exception => true
  | .runtime_error, .runtime_error => true
  | .runtime_error, .exception => true
  | _, _ => false

/-- A variant is caught by a handler for base class `b` exactly when
its direct base derives from `b`. -/
def variantDerivesFrom (t : VariantTag) (b : CppBase) : Bool :=
  baseDerivesFrom (directBase t) b

/-- The `SolverException` class from the source: it stores the solver
error code and the message built once in the constructor
(`what_message = oss.str()` where
`oss << "Error code " << error_code << " during solve." << std::endl`). -/
structure SolverException where
  error_code : Int
  what_message : String
deriving DecidableEq, Repr

/-- The `SolverException(int error_code_in)` constructor. -/
def mkSolverException (error_code_in : Int) : SolverException :=
  { error_code := error_code_in
    what_message :=
      "Error code " ++ toString error_code_in ++ " during solve." ++ "\n" }

/-- The member `SolverException::what()`: a const member returning
`what_message.c_str()`; it reads the stored message and leaves the
object unchanged. -/
def SolverException.what (s : SolverException) : String × SolverException :=
  (s.what_message, s)

/-- A fully constructed exception object of any of the seven classes,
carrying the message stored in the base class at construction time
(for `SolverException`, the whole object). -/
inductive LibmeshError
  | logicError (stored : String)
  | notImplemented (stored : String)
  | fileError (stored : String)
  | convergenceFailure (stored : String)
  | dynamicCastFailure (stored : String)
  | floatingPointException (stored : String)
  | solverException (s : SolverException)
deriving DecidableEq, Repr

/-- The dynamic type of a constructed object. -/
def LibmeshError.variantOf : LibmeshError → VariantTag
  | .logicError _ => .LogicError
  | .notImplemented _ => .NotImplemented
  | .fileError _ => .FileError
  | .convergenceFailure _ => .ConvergenceFailure
  | .dynamicCastFailure _ => .DynamicCastFailure
  | .floatingPointException _ => .FloatingPointException
  | .solverException _ => .SolverException

/-- The `what()` description of a constructed object: the string
stored in the standard base class at construction, or
`what_message` for `SolverException`. -/
def LibmeshError.what : LibmeshError → String
  | .logicError s => s
  | .notImplemented s => s
  | .fileError s => s
  | .convergenceFailure s => s
  | .dynamicCastFailure s => s
  | .floatingPointException s => s
  | .solverException s => s.what_message

/-- Constructor `LogicError()` : calls `std::logic_error("Error in libMesh internal logic")`. -/
def mkLogicError : LibmeshError :=
  .logicError "Error in libMesh internal logic"

/-- Constructor `LogicError(const std::string & msg)` : calls `std::logic_error(msg)`. -/
def mkLogicErrorMsg (msg : String) : LibmeshError :=
  .logicError msg

/-- Constructor `NotImplemented()` : calls `std::logic_error("Error: not implemented!")`. -/
def mkNotImplemented : LibmeshError :=
  .notImplemented "Error: not implemented!"

/-- Constructor `FileError(const std::string & filename)` : calls
`std::runtime_error("Error accessing file: " + filename)`. -/
def mkFileError (filename : String) : LibmeshError :=
  .fileError ("Error accessing file: " ++ filename)

/-- Constructor `ConvergenceFailure()` : calls
`std::runtime_error("Unrecoverable failure to converge")`. -/
def mkConvergenceFailure : LibmeshError :=
  .convergenceFailure "Unrecoverable failure to converge"

/-- Constructor `DynamicCastFailure()` : calls `std::runtime_error("Failed dynamic cast!")`. -/
def mkDynamicCastFailure : LibmeshError :=
  .dynamicCastFailure "Failed dynamic cast!"

/-- Constructor `FloatingPointException()` : calls `std::runtime_error("libmesh FPE!")`. -/
def mkFloatingPointException : LibmeshError :=
  .floatingPointException "libmesh FPE!"

/-- The `SolverException(int)` object viewed as a taxonomy member. -/
def mkSolverError (c : Int) : LibmeshError :=
  .solverException (mkSolverException c)

/-- The operations a handler can perform on a constructed exception
object: call `what()` (all variants) or read the public `error_code`
field (`SolverException`). -/
inductive Query
  | queryWhat
  | queryCode
deriving DecidableEq, Repr

/-- Running one query against an object: `what()` is a const member
function and reading `error_code` is a field access, so the object
after the query is the object before it (the read value is returned
alongside). -/
def applyQuery : LibmeshError → Query → LibmeshError
  | e, .queryWhat =>
      match e with
      | .solverException s => .solverException (SolverException.what s).2
      | e => e
  | e, .queryCode =>
      match e with
      | .solverException s => .solverException s
      | e => e

/-- Running a sequence of queries against a constructed object. -/
def runQueries (e : LibmeshError) (qs : List Query) : LibmeshError :=
  qs.foldl applyQuery e

/-- A `catch` clause names either one of the seven classes or one of
the standard base classes. -/
inductive Matcher
  | kind (t : VariantTag)
  | base (b : CppBase)
deriving DecidableEq, Repr

/-- C++ handler matching: a `catch` for one of the seven leaf classes
matches exactly that class; a `catch` for a standard base class
matches every variant deriving from it. -/
def matcherMatches : Matcher → VariantTag → Bool
  | .kind t', t => t' == t
  | .base b, t => variantDerivesFrom t b

/-- A variant is caught by a root-level handler when one of the two
capability roots of the spec — the runtime-condition root
(`std::runtime_error`) or the logic-condition root
(`std::logic_error`) — matches it. -/
def belongsToRoot (t : VariantTag) : Bool :=
  matcherMatches (.base .runtime_error) t || matcherMatches (.base .logic_error) t

mutual

/-- Statements of the call-site vocabulary: sequencing, an observable
side effect (`emit`), `raise e` (the `LIBMESH_THROW(e)` macro), and a
`libmesh_try` block followed by its `libmesh_catch` clauses. -/
inductive Stmt
  | skip
  | emit (tag : Nat)
  | seq (a b : Stmt)
  | raise (e : LibmeshError)
  | tryCatch (body : Stmt) (hs : Handlers)

/-- The (possibly empty) list of `libmesh_catch(e) { ... }` clauses
attached to one `libmesh_try`. -/
inductive Handlers
  | nil
  | cons (m : Matcher) (h : Stmt) (rest : Handlers)

end

/-- The possible outcomes of running a statement: normal completion,
an exception still propagating, or process termination. -/
inductive Outcome
  | normal
  | raised (e : LibmeshError)
  | terminated
deriving DecidableEq, Repr

mutual

/-- Structured mode (`LIBMESH_ENABLE_EXCEPTIONS` defined):
`LIBMESH_THROW(e)` is `do { throw e; } while (0)`, `libmesh_try` is
`try`, `libmesh_catch(e)` is `catch(e)`.  Returns the outcome and the
trace of emitted tags. -/
def execS : Stmt → Outcome × List Nat
  | .skip => (.normal, [])
  | .emit t => (.normal, [t])
  | .seq a b =>
      match execS a with
      | (.normal, tr) =>
          let r := execS b
          (r.1, tr ++ r.2)
      | r => r
  | .raise e => (.raised e, [])
  | .tryCatch body hs =>
      match execS body with
      | (.raised e, tr) =>
          let r := execH e hs
          (r.1, tr ++ r.2)
      | r => r

/-- Handler dispatch in structured mode: the first clause whose
matcher matches the dynamic type of the raised object runs, and only
it; with no matching clause the exception keeps propagating. -/
def execH (e : LibmeshError) : Handlers → Outcome × List Nat
  | .nil => (.raised e, [])
  | .cons m h rest =>
      if matcherMatches m e.variantOf then execS h else execH e rest

end

/-- The handler statement selected by `libmesh_catch` dispatch for a
raised object, if any: the first clause whose matcher matches. -/
def selectHandler (v : VariantTag) : Handlers → Option Stmt
  | .nil => none
  | .cons m h rest => if matcherMatches m v then some h else selectHandler v rest

/-- Terminate mode (`LIBMESH_ENABLE_EXCEPTIONS` undefined):
`LIBMESH_THROW(e)` is `do { std::abort(); } while (0)` (its argument
is not evaluated), `libmesh_try` expands to nothing and
`libmesh_catch(e)` to `if (0)`, so a try block runs as plain code and
every catch clause is a dead branch. -/
def execT : Stmt → Outcome × List Nat
  | .skip => (.normal, [])
  | .emit t => (.normal, [t])
  | .seq a b =>
      match execT a with
      | (.normal, tr) =>
          let r := execT b
          (r.1, tr ++ r.2)
      | r => r
  | .raise _ => (.terminated, [])
  | .tryCatch body _ => execT body

/-! ## Helper lemmas -/

/-- A single query leaves any constructed object unchanged. -/
theorem applyQuery_id (e : LibmeshError) (q : Query) : applyQuery e q = e := by
  cases q <;> cases e <;> rfl

/-- Handler dispatch runs exactly the clause picked by `selectHandler`. -/
theorem execH_select (e : LibmeshError) :
    ∀ (hs : Handlers) (h : Stmt),
      selectHandler e.variantOf hs = some h → execH e hs = execS h
  | .nil, h, hsel => by simp [selectHandler] at hsel
  | .cons m h0 rest, h, hsel => by
      by_cases hm : matcherMatches m e.variantOf
      · simp [selectHandler, hm] at hsel
        simp [execH, hm, hsel]
      · simp [selectHandler, hm] at hsel
        simpa [execH, hm] using execH_select e rest h hsel

/-! ## Claims -/

/-- C1 counterexample: `SolverException` is matched by neither of the
two capability roots, because in the source it derives from
`std::exception` directly, not from `std::runtime_error` or
`std::logic_error`; so the claim that every variant belongs to one of
the two roots fails at the variant `SolverException`. -/
theorem C1_solverException_no_root :
    belongsToRoot VariantTag.SolverException = false := by decide

/-- C1 (amended): every variant except `SolverException` belongs to
one of the two capability roots (runtime-condition =
`std::runtime_error`, logic-condition = `std::logic_error`) and so
has a matching root-level catch; `SolverException` belongs to
neither, and is matched only by a catch on the shared
`std::exception` base. -/
theorem C1_roots_amended :
    ∀ t : VariantTag,
      (belongsToRoot t = true ↔ t ≠ VariantTag.SolverException) ∧
      matcherMatches (Matcher.base CppBase.exception) t = true := by
  intro t
  cases t <;> exact ⟨by decide, by decide⟩

/-- C2: in terminate mode, `LIBMESH_THROW(e)` terminates the process
at once with no observable effect: the outcome does not depend on the
error object (which is never constructed, the macro ignoring its
argument), no statement sequenced after the raise runs, and every
`libmesh_catch` clause is a dead branch — running a try block with
any clauses (or different clauses) is the same as running its body
alone, so no handler body is ever entered. -/
theorem C2_terminate_mode (e e' : LibmeshError) (rest body : Stmt)
    (hs hs' : Handlers) :
    execT (Stmt.raise e) = (Outcome.terminated, []) ∧
    execT (Stmt.raise e) = execT (Stmt.raise e') ∧
    execT (Stmt.seq (Stmt.raise e) rest) = (Outcome.terminated, []) ∧
    execT (Stmt.tryCatch body hs) = execT body ∧
    execT (Stmt.tryCatch body hs) = execT (Stmt.tryCatch body hs') := by
  refine ⟨rfl, rfl, ?_, rfl, rfl⟩
  simp [execT]

/-- C3: the description of a `FileError` built from any filename `F`
contains `F` byte-for-byte (it is the fixed prefix followed by `F`),
and for `"missing.dat"` it is exactly
`"Error accessing file: missing.dat"`. -/
theorem C3_fileError_description (F : String) :
    (∃ p q, (mkFileError F).what = p ++ F ++ q) ∧
    (mkFileError "missing.dat").what = "Error accessing file: missing.dat" := by
  refine ⟨⟨"Error accessing file: ", "", ?_⟩, rfl⟩
  simp [mkFileError, LibmeshError.what]

/-- C4: a `SolverException` built from code `C` reads back exactly `C`
in its `error_code` field; its description is a pure deterministic
function of `C` (equal codes give identical objects, hence identical
descriptions); and for code 7 the description contains `"7"`. -/
theorem C4_solverException_code (C C' : Int) (h : C = C') :
    (mkSolverException C).error_code = C ∧
    (mkSolverException C).what_message = (mkSolverException C').what_message ∧
    (∃ p q, (mkSolverException 7).what_message = p ++ "7" ++ q) := by
  subst h
  exact ⟨rfl, rfl, ⟨"Error code ", " during solve.\n", rfl⟩⟩

/-- C4 witness at the concrete code 7. -/
theorem C4_solverException_code_witness :
    (mkSolverException 7).error_code = 7 ∧
    (mkSolverException 7).what_message = (mkSolverException 7).what_message ∧
    (∃ p q, (mkSolverException 7).what_message = p ++ "7" ++ q) :=
  C4_solverException_code 7 7 rfl

/-- C5: in structured mode, raising inside a try block whose clause
list selects handler `h` for the raised object's kind transfers
control to `h` exactly once: the whole construct behaves exactly like
the single run of `h` (same outcome, same trace), so no other
handler's body runs for that raise. -/
theorem C5_structured_dispatch (e : LibmeshError) (hs : Handlers) (h : Stmt)
    (hsel : selectHandler e.variantOf hs = some h) :
    execS (Stmt.tryCatch (Stmt.raise e) hs) = execS h := by
  have hh := execH_select e hs h hsel
  simp [execS, hh]

/-- C5 witness: a convergence failure raised inside a try with a
matching `catch(ConvergenceFailure)` whose body emits tag 1. -/
theorem C5_structured_dispatch_witness :
    selectHandler (LibmeshError.variantOf mkConvergenceFailure)
        (Handlers.cons (Matcher.kind VariantTag.ConvergenceFailure)
          (Stmt.emit 1) Handlers.nil) = some (Stmt.emit 1) ∧
    execS (Stmt.tryCatch (Stmt.raise mkConvergenceFailure)
        (Handlers.cons (Matcher.kind VariantTag.ConvergenceFailure)
          (Stmt.emit 1) Handlers.nil)) = execS (Stmt.emit 1) :=
  ⟨rfl, C5_structured_dispatch mkConvergenceFailure _ _ rfl⟩

/-- C6: in structured mode, with an inner `catch(ConvergenceFailure)`
of body `ih` nested inside an outer try whose catch matches the
runtime-condition root (`std::runtime_error`) with body `oh`, raising
`ConvergenceFailure` in the inner try is handled by the inner
handler: provided `ih` completes normally, the whole nest behaves
exactly like `ih` alone, so the outer handler is never entered for
that raise. -/
theorem C6_nested_inner_catches (ih oh : Stmt)
    (hnorm : (execS ih).1 = Outcome.normal) :
    execS (Stmt.tryCatch
        (Stmt.tryCatch (Stmt.raise mkConvergenceFailure)
          (Handlers.cons (Matcher.kind VariantTag.ConvergenceFailure) ih
            Handlers.nil))
        (Handlers.cons (Matcher.base CppBase.runtime_error) oh Handlers.nil)) =
      execS ih := by
  rcases hih : execS ih with ⟨o, tr⟩
  rw [hih] at hnorm
  simp at hnorm
  subst hnorm
  simp [execS, execH, matcherMatches, mkConvergenceFailure,
    LibmeshError.variantOf, hih]

/-- C6 witness: inner handler emits tag 1, outer handler emits tag 2;
the nest runs the inner handler only. -/
theorem C6_nested_inner_catches_witness :
    (execS (Stmt.emit 1)).1 = Outcome.normal ∧
    execS (Stmt.tryCatch
        (Stmt.tryCatch (Stmt.raise mkConvergenceFailure)
          (Handlers.cons (Matcher.kind VariantTag.ConvergenceFailure)
            (Stmt.emit 1) Handlers.nil))
        (Handlers.cons (Matcher.base CppBase.runtime_error) (Stmt.emit 2)
          Handlers.nil)) = execS (Stmt.emit 1) :=
  ⟨rfl, C6_nested_inner_catches (Stmt.emit 1) (Stmt.emit 2) rfl⟩

/-- C7: the payload-free `LogicError()` constructor stores exactly the
fixed default message. -/
theorem C7_logicError_default :
    mkLogicError.what = "Error in libMesh internal logic" := rfl

/-- C8: the description of any constructed object is fixed at
construction: running any sequence of the available operations
(querying `what()` or the `error_code` field) leaves the object, and
in particular its description, unchanged. -/
theorem C8_description_immutable (e : LibmeshError) (qs : List Query) :
    runQueries e qs = e ∧ (runQueries e qs).what = e.what := by
  have hrun : runQueries e qs = e := by
    induction qs generalizing e with
    | nil => rfl
    | cons q rest ih => simpa [runQueries, applyQuery_id] using ih e
  exact ⟨hrun, by rw [hrun]⟩

/-- C9: every constructor is total and yields a well-formed object for
every input: the dynamic type is the class constructed, the object
carries a solver code exactly when it is a `SolverException`, and the
description is the one prescribed for the inputs — so no construction
raises a secondary error. -/
theorem C9_construction_total (msg F : String) (c : Int) :
    (mkLogicError.variantOf = VariantTag.LogicError ∧
      (mkLogicErrorMsg msg).variantOf = VariantTag.LogicError ∧
      mkNotImplemented.variantOf = VariantTag.NotImplemented ∧
      (mkFileError F).variantOf = VariantTag.FileError ∧
      mkConvergenceFailure.variantOf = VariantTag.ConvergenceFailure ∧
      mkDynamicCastFailure.variantOf = VariantTag.DynamicCastFailure ∧
      mkFloatingPointException.variantOf = VariantTag.FloatingPointException ∧
      (mkSolverError c).variantOf = VariantTag.SolverException) ∧
    (mkSolverError c).what = (mkSolverException c).what_message ∧
    (mkSolverException c).error_code = c := by
  exact ⟨⟨rfl, rfl, rfl, rfl, rfl, rfl, rfl, rfl⟩, rfl, rfl⟩

/-- C10: the `LogicError(msg)` constructor stores `msg` itself: the
description equals the supplied message with no prefix, template or
default text applied. -/
theorem C10_logicError_message (msg : String) :
    (mkLogicErrorMsg msg).what = msg := rfl

end libMesh
